import Mathlib

/-!
Shallow embedding of the food-portfolio REST API server
(Express + Supabase + Gemini), covering:

* the generic Data Access Helper (`dbHelpers` in server/config/supabase.js),
* the entity repositories (`DishModel` in server/models/Dish.js,
  `ContactModel` in server/models/Contact.js),
* the request handlers (`PortfolioController`, `ContactController`,
  `ChatbotController`),
* the AI gateway (`GeminiService` in server/config/gemini.js).

External effects are made explicit parameters: the database table is a
`List` of rows, a possible store-level exception is an `Option Err`
argument, and the outcome of the generative-AI network call is an
`Except Err String` argument.  JavaScript `undefined`/missing fields are
modelled with `Option`; JS truthiness on strings (`if (x)`) is modelled
by `truthyStr`.
-/

/-- A thrown/returned error value; only its message is ever inspected. -/
structure Err where
  message : String
  deriving Repr, DecidableEq

/-- The `{data, error}` result shape returned by every dbHelpers operation. -/
structure DbResult (α : Type) where
  data : Option α
  error : Option Err
  deriving Repr, DecidableEq

/-- dbHelpers.delete returns `{error}` only - no data payload. -/
structure DbDeleteResult where
  error : Option Err
  deriving Repr, DecidableEq

/-- JS truthiness of an optional string: `undefined`, `null` and `""` are
falsy, every other string is truthy. -/
def truthyStr : Option String → Bool
  | none => false
  | some s => !(s == "")

/-- JS `x || null` on an optional string: a falsy value collapses to null. -/
def jsOrNull : Option String → Option String
  | none => none
  | some s => if s == "" then none else some s

/-- JS `x || null` on an optional number: `0` is falsy and collapses to null. -/
def jsNumOrNull : Option Nat → Option Nat
  | none => none
  | some n => if n == 0 then none else some n

/-- Does `pat` occur as a contiguous prefix of `hay`? (auxiliary for
substring search). -/
def headMatches : List Char → List Char → Bool
  | [], _ => true
  | _ :: _, [] => false
  | x :: xs, y :: ys => x == y && headMatches xs ys

/-- Does `pat` occur contiguously anywhere in `hay`? -/
def occursIn (pat : List Char) : List Char → Bool
  | [] => headMatches pat []
  | c :: t => headMatches pat (c :: t) || occursIn pat t

/-- Predicate `strHas hay pat` : does string `hay` contain `pat` as a substring?
Models JS `String.prototype.includes`. -/
def strHas (hay pat : String) : Bool :=
  occursIn pat.toList hay.toList

/-- Case-insensitive substring containment; models the SQL `ilike`
pattern `%pat%` used by the search queries. -/
def ilikeHas (hay pat : String) : Bool :=
  strHas hay.toLower pat.toLower

/-- JS `Array.prototype.slice(s, e)` for non-negative indices. -/
def jsSlice {α : Type} (xs : List α) (s e : Nat) : List α :=
  (xs.take e).drop s

/-- Strip leading and trailing whitespace from a character list. -/
def jsTrimList (cs : List Char) : List Char :=
  (((cs.dropWhile Char.isWhitespace).reverse).dropWhile Char.isWhitespace).reverse

/-- JS `String.prototype.trim()`. -/
def jsTrim (s : String) : String :=
  String.mk (jsTrimList s.toList)

/-- A character admissible in the email regex's `[^\s@]+` atoms:
anything that is not whitespace and not `@`. -/
def emailChar (c : Char) : Bool :=
  !c.isWhitespace && !(c == '@')

/-- Is some element other than the last one of the list a dot? -/
def dotBeforeLast : List Char → Bool
  | [] => false
  | [_] => false
  | c :: rest => c == '.' || dotBeforeLast rest

/-- The domain part (after the first `@`) matches `[^\s@]+\.[^\s@]+`:
nonempty, all characters admissible, and a dot occurs at a position that
is neither first nor last. -/
def emailDomainOk (d : List Char) : Bool :=
  match d with
  | [] => false
  | _ :: rest => d.all emailChar && dotBeforeLast rest

/-- Embeds `emailRegex.test(email)` for the pattern used by
ContactController.submitContact: a nonempty `@`-free whitespace-free
local part, one `@`, then a domain with an interior dot. -/
def emailRegexTest (s : String) : Bool :=
  let cs := s.toList
  let localPart := cs.takeWhile (fun c => !(c == '@'))
  let rest := cs.dropWhile (fun c => !(c == '@'))
  match rest with
  | [] => false
  | _ :: domain =>
      !localPart.isEmpty && localPart.all emailChar && emailDomainOk domain

/-! ## Data model: rows as stored in the two tables -/

/-- A row of the `dishes` table. -/
structure Dish where
  id : String
  title : String
  description : String
  category : String
  image_url : Option String
  price : Option String
  ingredients : List String
  is_featured : Bool
  is_available : Bool
  created_at : String
  updated_at : String
  deriving Repr, DecidableEq

/-- A row of the `contact_messages` table. -/
structure ContactMsg where
  id : String
  name : String
  email : String
  phone : Option String
  event_type : Option String
  guests : Option Nat
  preferred_date : Option String
  message : String
  status : String
  created_at : String
  updated_at : String
  deriving Repr, DecidableEq

/-! ## Data Access Helper (`dbHelpers` in server/config/supabase.js)

Each operation runs a store query inside `try/catch`; a store-level
exception is the explicit `exc : Option Err` argument.  On
`exc = some e` the `catch` block converts the exception into
`{data: null, error}`; nothing propagates past the helper. -/

/-- dbHelpers.select: on success the data is the filtered row list
(`query` is the pure result of applying the equality filters); on a
store exception the catch block yields `{data: null, error}`. -/
def dbSelect {α : Type} (queryResult : List α) (exc : Option Err) : DbResult (List α) :=
  match exc with
  | some e => { data := none, error := some e }
  | none => { data := some queryResult, error := none }

/-- dbHelpers.insert: on success the store echoes the inserted row(s);
a store exception is caught and returned as the error field. -/
def dbInsert {α : Type} (row : α) (exc : Option Err) : DbResult (List α) :=
  match exc with
  | some e => { data := none, error := some e }
  | none => { data := some [row], error := none }

/-- dbHelpers.update specialised to a table of rows with a chosen id:
applies `patch` to every row whose id matches, returns the updated
row(s); an unmatched id yields `data = some []`. -/
def dbUpdateRows {α : Type} (rowId : α → String) (patch : α → α)
    (store : List α) (id : String) (exc : Option Err) :
    DbResult (List α) × List α :=
  match exc with
  | some e => ({ data := none, error := some e }, store)
  | none =>
      let newStore := store.map (fun r => if rowId r == id then patch r else r)
      let touched := (store.filter (fun r => rowId r == id)).map patch
      ({ data := some touched, error := none }, newStore)

/-- dbHelpers.delete specialised to a table of rows with a chosen id:
removes every row whose id matches; returns `{error}` only. -/
def dbDeleteRows {α : Type} (rowId : α → String)
    (store : List α) (id : String) (exc : Option Err) :
    DbDeleteResult × List α :=
  match exc with
  | some e => ({ error := some e }, store)
  | none => ({ error := none }, store.filter (fun r => !(rowId r == id)))

/-! ## DishModel (server/models/Dish.js) -/

/-- The partial-update payload a PUT request may carry (every field
optional; absent fields are left untouched by the store's column
update). -/
structure DishPatch where
  title : Option String := none
  description : Option String := none
  category : Option String := none
  image_url : Option (Option String) := none
  price : Option (Option String) := none
  ingredients : Option (List String) := none
  is_featured : Option Bool := none
  is_available : Option Bool := none
  deriving Repr, DecidableEq

/-- The store's partial column update: present patch fields replace the
row's columns, and `updated_at` (always present, stamped by
DishModel.update) is refreshed. -/
def applyDishPatch (p : DishPatch) (now : String) (r : Dish) : Dish :=
  { r with
    title := p.title.getD r.title
    description := p.description.getD r.description
    category := p.category.getD r.category
    image_url := p.image_url.getD r.image_url
    price := p.price.getD r.price
    ingredients := p.ingredients.getD r.ingredients
    is_featured := p.is_featured.getD r.is_featured
    is_available := p.is_available.getD r.is_available
    updated_at := now }

/-- The raw creation request body (`req.body` of POST /api/portfolio),
every field possibly absent. -/
structure DishInput where
  title : Option String := none
  description : Option String := none
  category : Option String := none
  image_url : Option String := none
  price : Option String := none
  ingredients : Option (List String) := none
  is_featured : Option Bool := none
  is_available : Option Bool := none
  deriving Repr, DecidableEq

/-- DishModel.create's normalisation of the input into the full record
shape: `image_url`/`price` via `|| null`, `ingredients` via `|| []`,
`is_featured` via `|| false`, `is_available` via `!== false` (default
true), timestamps stamped with the current time.  The id is assigned by
the store on insert. -/
def dishCreateRecord (d : DishInput) (newId : String) (now : String) : Dish :=
  { id := newId
    title := d.title.getD ""
    description := d.description.getD ""
    category := d.category.getD ""
    image_url := jsOrNull d.image_url
    price := jsOrNull d.price
    ingredients := d.ingredients.getD []
    is_featured := d.is_featured.getD false
    is_available := !(d.is_available == some false)
    created_at := now
    updated_at := now }

/-- DishModel.getAll with no category argument: select with empty
filters, i.e. the whole table. -/
def dishGetAll (store : List Dish) (exc : Option Err) : DbResult (List Dish) :=
  dbSelect store exc

/-- DishModel.getFeatured: select with filter `is_featured = true`. -/
def dishGetFeatured (store : List Dish) (exc : Option Err) : DbResult (List Dish) :=
  dbSelect (store.filter (fun r => r.is_featured == true)) exc

/-- DishModel.getAvailable: select with filter `is_available = true`. -/
def dishGetAvailable (store : List Dish) (exc : Option Err) : DbResult (List Dish) :=
  dbSelect (store.filter (fun r => r.is_available == true)) exc

/-- DishModel.getByCategory: select with filter `category = c`. -/
def dishGetByCategory (store : List Dish) (c : String) (exc : Option Err) :
    DbResult (List Dish) :=
  dbSelect (store.filter (fun r => r.category == c)) exc

/-- DishModel.getById: select with filter `id = i`, then adapt the list
result to first-element-or-null. -/
def dishGetById (store : List Dish) (i : String) (exc : Option Err) :
    DbResult Dish :=
  let result := dbSelect (store.filter (fun r => r.id == i)) exc
  { data := result.data.bind List.head?, error := result.error }

/-- DishModel.search: direct supabase query
`title.ilike.%term% OR description.ilike.%term%`, wrapped in its own
try/catch that converts a store exception into `{data: null, error}`. -/
def dishSearch (store : List Dish) (term : String) (exc : Option Err) :
    DbResult (List Dish) :=
  match exc with
  | some e => { data := none, error := some e }
  | none =>
      { data := some (store.filter
          (fun r => ilikeHas r.title term || ilikeHas r.description term))
        error := none }

/-- DishModel.update: merges `updated_at := now` over the request's
partial fields and delegates to dbHelpers.update. -/
def dishUpdate (store : List Dish) (i : String) (p : DishPatch) (now : String)
    (exc : Option Err) : DbResult (List Dish) × List Dish :=
  dbUpdateRows Dish.id (applyDishPatch p now) store i exc

/-- DishModel.delete: delegates to dbHelpers.delete. -/
def dishDelete (store : List Dish) (i : String) (exc : Option Err) :
    DbDeleteResult × List Dish :=
  dbDeleteRows Dish.id store i exc

/-! ## ContactModel (server/models/Contact.js) -/

/-- The raw contact submission body (`req.body` of POST /api/contact).
A client may also send a `status` field; ContactModel.create never reads
it. -/
structure ContactInput where
  name : Option String := none
  email : Option String := none
  phone : Option String := none
  eventType : Option String := none
  guests : Option Nat := none
  date : Option String := none
  message : Option String := none
  status : Option String := none
  deriving Repr, DecidableEq

/-- ContactModel.create's normalisation: optional fields via `|| null`,
`status` set to the literal `'new'` unconditionally, timestamps stamped
with the current time. -/
def contactCreateRecord (c : ContactInput) (newId : String) (now : String) :
    ContactMsg :=
  { id := newId
    name := c.name.getD ""
    email := c.email.getD ""
    phone := jsOrNull c.phone
    event_type := jsOrNull c.eventType
    guests := jsNumOrNull c.guests
    preferred_date := jsOrNull c.date
    message := c.message.getD ""
    status := "new"
    created_at := now
    updated_at := now }

/-- ContactModel.getAll with no status argument: the whole table. -/
def contactGetAll (store : List ContactMsg) (exc : Option Err) :
    DbResult (List ContactMsg) :=
  dbSelect store exc

/-- ContactModel.getByStatus: select with filter `status = s`. -/
def contactGetByStatus (store : List ContactMsg) (s : String) (exc : Option Err) :
    DbResult (List ContactMsg) :=
  dbSelect (store.filter (fun r => r.status == s)) exc

/-- Insert `x` into a list kept ordered by the (reflexive, total)
comparator `ge`. -/
def insertOrdered {α : Type} (ge : α → α → Bool) (x : α) : List α → List α
  | [] => [x]
  | y :: ys => if ge x y then x :: y :: ys else y :: insertOrdered ge x ys

/-- Insertion sort by the comparator `ge`. -/
def sortOrdered {α : Type} (ge : α → α → Bool) : List α → List α
  | [] => []
  | x :: xs => insertOrdered ge x (sortOrdered ge xs)

/-- The `ORDER BY created_at DESC` applied by the bespoke contact
queries (ISO-8601 timestamps order lexicographically). -/
def orderByCreatedAtDesc (rows : List ContactMsg) : List ContactMsg :=
  sortOrdered (fun a b => decide (b.created_at ≤ a.created_at)) rows

/-- ContactModel.search: direct supabase query
`name.ilike.%term% OR email.ilike.%term%` ordered by created_at
descending, wrapped in its own try/catch that converts a store
exception into `{data: null, error}`. -/
def contactSearch (store : List ContactMsg) (term : String) (exc : Option Err) :
    DbResult (List ContactMsg) :=
  match exc with
  | some e => { data := none, error := some e }
  | none =>
      { data := some (orderByCreatedAtDesc (store.filter
          (fun r => ilikeHas r.name term || ilikeHas r.email term)))
        error := none }

/-- ContactModel.getRecent: direct supabase query selecting rows with
`created_at >= cutoff` ordered by created_at descending, wrapped in its
own try/catch that converts a store exception into
`{data: null, error}`.  The cutoff (the ISO serialisation of
now minus `days` days, computed from the caller's clock) is an explicit
parameter. -/
def contactGetRecent (store : List ContactMsg) (cutoff : String)
    (exc : Option Err) : DbResult (List ContactMsg) :=
  match exc with
  | some e => { data := none, error := some e }
  | none =>
      { data := some (orderByCreatedAtDesc (store.filter
          (fun r => decide (cutoff ≤ r.created_at))))
        error := none }

/-- ContactModel.getById: select with filter `id = i`, then adapt the
list result to first-element-or-null. -/
def contactGetById (store : List ContactMsg) (i : String) (exc : Option Err) :
    DbResult ContactMsg :=
  let result := dbSelect (store.filter (fun r => r.id == i)) exc
  { data := result.data.bind List.head?, error := result.error }

/-- The column update built by ContactModel.updateStatus: the new
status plus a refreshed `updated_at`. -/
def applyStatusPatch (s now : String) (r : ContactMsg) : ContactMsg :=
  { r with status := s, updated_at := now }

/-- ContactModel.updateStatus: merges `updated_at := now` over the new
status and delegates to dbHelpers.update. -/
def contactUpdateStatus (store : List ContactMsg) (i s now : String)
    (exc : Option Err) : DbResult (List ContactMsg) × List ContactMsg :=
  dbUpdateRows ContactMsg.id (applyStatusPatch s now) store i exc

/-- ContactModel.delete: delegates to dbHelpers.delete. -/
def contactDelete (store : List ContactMsg) (i : String) (exc : Option Err) :
    DbDeleteResult × List ContactMsg :=
  dbDeleteRows ContactMsg.id store i exc

/-! ## PortfolioController (server/controllers/portfolioController.js) -/

/-- The query string of GET /api/portfolio. -/
structure PortfolioQuery where
  category : Option String := none
  featured : Option String := none
  available : Option String := none
  search : Option String := none
  deriving Repr, DecidableEq

/-- Response of GET /api/portfolio. -/
structure DishListResp where
  status : Nat
  success : Bool
  data : List Dish
  count : Nat
  errMsg : Option String
  deriving Repr, DecidableEq

/-- PortfolioController.getAllDishes: the if/else-if chain dispatching
on the query parameters (JS truthiness for `search`/`category`, strict
`=== 'true'` for `featured`/`available`), then the common
error-or-success response shaping. -/
def getAllDishes (q : PortfolioQuery) (store : List Dish) (exc : Option Err) :
    DishListResp :=
  let result :=
    if truthyStr q.search then dishSearch store (q.search.getD "") exc
    else if q.featured == some "true" then dishGetFeatured store exc
    else if q.available == some "true" then dishGetAvailable store exc
    else if truthyStr q.category then dishGetByCategory store (q.category.getD "") exc
    else dishGetAll store exc
  match result.error with
  | some e =>
      { status := 500, success := false, data := [], count := 0
        errMsg := some e.message }
  | none =>
      { status := 200, success := true
        data := result.data.getD []
        count := (result.data.getD []).length
        errMsg := none }

/-- Response of POST /api/portfolio.  `storeArg` records the record that
was handed to dbHelpers.insert (`none` when validation short-circuited
before any store call). -/
structure CreateDishResp where
  status : Nat
  success : Bool
  storeArg : Option Dish
  deriving Repr, DecidableEq

/-- PortfolioController.createDish: requires truthy title, description
and category, then delegates to DishModel.create / dbHelpers.insert. -/
def createDish (body : DishInput) (newId : String) (now : String)
    (exc : Option Err) : CreateDishResp :=
  if !truthyStr body.title || !truthyStr body.description || !truthyStr body.category then
    { status := 400, success := false, storeArg := none }
  else
    let record := dishCreateRecord body newId now
    let result := dbInsert record exc
    match result.error with
    | some _ => { status := 500, success := false, storeArg := some record }
    | none => { status := 201, success := true, storeArg := some record }

/-- Response of PUT /api/portfolio/:id. -/
structure UpdateDishResp where
  status : Nat
  success : Bool
  returned : Option Dish
  deriving Repr, DecidableEq

/-- PortfolioController.updateDish: delegates to DishModel.update; a
store error gives 500, an empty updated-row list gives 404, otherwise
200 with the first updated row.  Also returns the store state after the
request. -/
def updateDish (i : String) (body : DishPatch) (now : String)
    (store : List Dish) (exc : Option Err) : UpdateDishResp × List Dish :=
  let (result, store') := dishUpdate store i body now exc
  match result.error with
  | some _ => ({ status := 500, success := false, returned := none }, store')
  | none =>
      match result.data with
      | none => ({ status := 404, success := false, returned := none }, store')
      | some rows =>
          if rows.isEmpty then
            ({ status := 404, success := false, returned := none }, store')
          else
            ({ status := 200, success := true, returned := rows.head? }, store')

/-- Response of DELETE /api/portfolio/:id. -/
structure DeleteDishResp where
  status : Nat
  success : Bool
  deriving Repr, DecidableEq

/-- PortfolioController.deleteDish: delegates to DishModel.delete with
no existence check; a store error gives 500, otherwise 200. -/
def deleteDish (i : String) (store : List Dish) (exc : Option Err) :
    DeleteDishResp × List Dish :=
  let (result, store') := dishDelete store i exc
  match result.error with
  | some _ => ({ status := 500, success := false }, store')
  | none => ({ status := 200, success := true }, store')

/-! ## ContactController (server/controllers/contactController.js) -/

/-- Response of POST /api/contact.  `storeArg` records the record handed
to dbHelpers.insert (`none` when validation short-circuited before any
store call). -/
structure SubmitContactResp where
  status : Nat
  success : Bool
  storeArg : Option ContactMsg
  deriving Repr, DecidableEq

/-- ContactController.submitContact: requires truthy name, email and
message, then checks the email against the basic regex, and only then
delegates to ContactModel.create / dbHelpers.insert. -/
def submitContact (body : ContactInput) (newId : String) (now : String)
    (exc : Option Err) : SubmitContactResp :=
  if !truthyStr body.name || !truthyStr body.email || !truthyStr body.message then
    { status := 400, success := false, storeArg := none }
  else if !emailRegexTest (body.email.getD "") then
    { status := 400, success := false, storeArg := none }
  else
    let record := contactCreateRecord body newId now
    let result := dbInsert record exc
    match result.error with
    | some _ => { status := 500, success := false, storeArg := some record }
    | none => { status := 201, success := true, storeArg := some record }

/-- The query string of GET /api/contact. -/
structure ContactListQuery where
  status : Option String := none
  limit : Option Nat := none
  offset : Option Nat := none
  deriving Repr, DecidableEq

/-- The `pagination` object of the GET /api/contact response. -/
structure Pagination where
  total : Nat
  limit : Nat
  offset : Nat
  has_more : Bool
  deriving Repr, DecidableEq

/-- Response of GET /api/contact. -/
structure ContactListResp where
  status : Nat
  success : Bool
  data : List ContactMsg
  pagination : Option Pagination
  deriving Repr, DecidableEq

/-- ContactController.getAllMessages: fetches the full (optionally
status-filtered) result set, then paginates in memory with
`slice(offset, offset + limit)` and derives `has_more` from whether the
slice's end index is before the full result length.  `limit` and
`offset` default to 50 and 0. -/
def getAllMessages (q : ContactListQuery) (store : List ContactMsg)
    (exc : Option Err) : ContactListResp :=
  let result :=
    if truthyStr q.status then contactGetByStatus store (q.status.getD "") exc
    else contactGetAll store exc
  match result.error with
  | some _ => { status := 500, success := false, data := [], pagination := none }
  | none =>
      let lim := q.limit.getD 50
      let off := q.offset.getD 0
      let startIndex := off
      let endIndex := off + lim
      match result.data with
      | some rows =>
          { status := 200, success := true
            data := jsSlice rows startIndex endIndex
            pagination := some
              { total := rows.length, limit := lim, offset := off
                has_more := decide (endIndex < rows.length) } }
      | none =>
          { status := 200, success := true, data := []
            pagination := some
              { total := 0, limit := lim, offset := off, has_more := false } }

/-! ## GeminiService (server/config/gemini.js) -/

/-- The constructed generative-AI client (opaque; holds the key it was
built with). -/
structure GenClient where
  key : String
  deriving Repr, DecidableEq

/-- The AI gateway singleton: the credential read from the environment
at process start, and the client, constructed once iff the credential
was truthy.  Nothing in the program ever mutates these fields after
construction. -/
structure GeminiService where
  apiKey : Option String
  genAI : Option GenClient
  deriving Repr, DecidableEq

/-- The GeminiService constructor: `this.apiKey = process.env.GEMINI_API_KEY`;
if the key is falsy the client stays null, otherwise it is constructed
once. -/
def GeminiService.init (envKey : Option String) : GeminiService :=
  if truthyStr envKey then
    { apiKey := envKey, genAI := some { key := envKey.getD "" } }
  else
    { apiKey := envKey, genAI := none }

/-- GeminiService.isAvailable: `this.genAI !== null`. -/
def GeminiService.isAvailable (svc : GeminiService) : Bool :=
  svc.genAI.isSome

/-- A catalog context item as projected by the chat handler
(title/description/category/price). -/
structure CtxItem where
  title : String
  description : String
  category : String
  price : Option String
  deriving Repr, DecidableEq

/-- The fixed system persona/instruction block composed by
generateResponse. -/
def systemContext : String :=
  "\nYou are a helpful AI assistant for \"Culinary Creations\", a premium food portfolio website. \nYour role is to help customers with:\n- Information about our dishes and menu items\n- Culinary advice and cooking tips\n- Event planning and catering inquiries\n- Food recommendations based on preferences\n- General information about our services\n\nAlways be friendly, professional, and knowledgeable about food and cooking.\nIf asked about specific dishes, refer to the portfolio context provided.\nIf you don\x27t know something specific about our business, politely redirect them to contact us directly.\n"

/-- The serialized bullet list of catalog context items appended to the
prompt (title, description, category). -/
def serializeCtx (items : List CtxItem) : String :=
  items.foldl
    (fun acc d =>
      acc ++ "- " ++ d.title ++ ": " ++ d.description ++ " (" ++ d.category ++ ")\n")
    ""

/-- generateResponse's prompt composition: the system block, then - only
when a non-empty context list was provided - the menu-items section,
then the raw user message. -/
def buildPrompt (message : String) (ctx : Option (List CtxItem)) : String :=
  let base := systemContext
  let withCtx :=
    match ctx with
    | some items =>
        if items.length > 0 then
          base ++ "\n\nOur Current Menu Items:\n" ++ serializeCtx items
        else base
    | none => base
  withCtx ++ "\n\nCustomer Question: " ++ message

/-- generateResponse's catch block: pattern-match the downstream error
message into invalid-credential / rate-limited / generic. -/
def mapGenErr (e : Err) : Err :=
  if strHas e.message "API_KEY_INVALID" then
    { message := "Invalid Gemini API key. Please check your configuration." }
  else if strHas e.message "RATE_LIMIT_EXCEEDED" then
    { message := "Rate limit exceeded. Please try again later." }
  else
    { message := "Failed to generate response. Please try again." }

/-- A successful generateResponse result; `sentPrompt` records the
composed prompt that was submitted to the generation service. -/
structure GenResponse where
  success : Bool
  message : String
  sentPrompt : String
  deriving Repr, DecidableEq

/-- GeminiService.generateResponse: fails immediately when the service
is unavailable (no network contact); otherwise composes the prompt,
submits it (outcome `gen`), and maps a downstream failure through the
error classifier. -/
def generateResponse (svc : GeminiService) (message : String)
    (ctx : Option (List CtxItem)) (gen : Except Err String) :
    Except Err GenResponse :=
  if !svc.isAvailable then
    Except.error
      { message := "Gemini AI service is not available. Please check your API key." }
  else
    let prompt := buildPrompt message ctx
    match gen with
    | Except.ok text =>
        Except.ok { success := true, message := text, sentPrompt := prompt }
    | Except.error e => Except.error (mapGenErr e)

/-! ## ChatbotController (server/controllers/chatbotController.js) -/

/-- The body of POST /api/chatbot/chat; `includeContext` defaults to
true when absent. -/
structure ChatBody where
  message : Option String := none
  includeContext : Option Bool := none
  deriving Repr, DecidableEq

/-- Embeds the check `!message || message.trim().length === 0`. -/
def messageMissing : Option String → Bool
  | none => true
  | some s => jsTrim s == ""

/-- Response of POST /api/chatbot/chat.  `sentPrompt` records the
prompt submitted to the generation service and `generationCalled`
whether the generation service was contacted at all. -/
structure ChatResp where
  status : Nat
  success : Bool
  contextIncluded : Option Bool
  sentPrompt : Option String
  generationCalled : Bool
  deriving Repr, DecidableEq

/-- The chat handler's projection of a dish into a context item. -/
def projCtx (d : Dish) : CtxItem :=
  { title := d.title, description := d.description
    category := d.category, price := d.price }

/-- ChatbotController.chat: 400 on a missing/blank message, 503 when
the gateway is unavailable (before any context fetch or generation
call); otherwise fetch the catalog context best-effort (`fetch` is the
DishModel.getAvailable result; a null `data` leaves the context null)
and submit to generateResponse.  `contextIncluded` is
`portfolioContext !== null`. -/
def chat (svc : GeminiService) (body : ChatBody) (fetch : DbResult (List Dish))
    (gen : Except Err String) : ChatResp :=
  if messageMissing body.message then
    { status := 400, success := false, contextIncluded := none
      sentPrompt := none, generationCalled := false }
  else if !svc.isAvailable then
    { status := 503, success := false, contextIncluded := none
      sentPrompt := none, generationCalled := false }
  else
    let includeCtx := body.includeContext.getD true
    let portfolioContext : Option (List CtxItem) :=
      if includeCtx then
        match fetch.data with
        | some ds => some (ds.map projCtx)
        | none => none
      else none
    match generateResponse svc (body.message.getD "") portfolioContext gen with
    | Except.ok r =>
        { status := 200, success := true
          contextIncluded := some portfolioContext.isSome
          sentPrompt := some r.sentPrompt, generationCalled := true }
    | Except.error _ =>
        { status := 500, success := false, contextIncluded := none
          sentPrompt := none, generationCalled := true }

/-- Response of GET /api/chatbot/status. -/
structure StatusResp where
  status : Nat
  success : Bool
  aiAvailable : Bool
  apiStatus : String
  deriving Repr, DecidableEq

/-- ChatbotController.getStatus: reports the gateway's availability
flag and the derived connected/disconnected string. -/
def getStatus (svc : GeminiService) : StatusResp :=
  { status := 200, success := true
    aiAvailable := svc.isAvailable
    apiStatus := if svc.isAvailable then "connected" else "disconnected" }

/-! ## Claim-side definitions and concrete sample inputs -/

/-- The five backing operations GET /api/portfolio can dispatch to. -/
inductive DishBackingOp where
  | searchOp (term : String)
  | featuredOp
  | availableOp
  | categoryOp (c : String)
  | allOp
  deriving Repr, DecidableEq

/-- Run one backing operation against the store. -/
def runDishOp : DishBackingOp → List Dish → Option Err → DbResult (List Dish)
  | .searchOp t, store, exc => dishSearch store t exc
  | .featuredOp, store, exc => dishGetFeatured store exc
  | .availableOp, store, exc => dishGetAvailable store exc
  | .categoryOp c, store, exc => dishGetByCategory store c exc
  | .allOp, store, exc => dishGetAll store exc

/-- Written from the claim wording (refinement side): the query
parameters select exactly one backing operation, with priority
search, then featured = true, then available = true, then category,
then the unfiltered list.  A parameter counts as present when it is
supplied with a non-empty value (JS truthiness, as in the source). -/
def claimSelectedOp (q : PortfolioQuery) : DishBackingOp :=
  if truthyStr q.search then .searchOp (q.search.getD "")
  else if q.featured == some "true" then .featuredOp
  else if q.available == some "true" then .availableOp
  else if truthyStr q.category then .categoryOp (q.category.getD "")
  else .allOp

/-- A concrete valid dish-creation body omitting `ingredients` and
`is_available`. -/
def sampleDishInput : DishInput :=
  { title := some "Seared Salmon", description := some "Fresh fillet",
    category := some "mains" }

/-- A concrete stored dish used by the witnesses. -/
def sampleDish : Dish :=
  { id := "d1", title := "Seared Salmon", description := "Fresh fillet",
    category := "mains", image_url := none, price := none, ingredients := [],
    is_featured := true, is_available := true, created_at := "t0",
    updated_at := "t0" }

/-- A concrete contact body with a syntactically invalid email. -/
def invalidEmailInput : ContactInput :=
  { name := some "Bob", email := some "not-an-email", message := some "hi" }

/-- A concrete valid contact body that also smuggles a client-supplied
status field `archived`. -/
def sampleContactInput : ContactInput :=
  { name := some "Bob", email := some "bob@example.com",
    message := some "hi", status := some "archived" }

/-- A chat body whose message is a single blank - non-empty, but
trimmed to emptiness by the handler's validation. -/
def blankChatBody : ChatBody :=
  { message := some " ", includeContext := none }

/-- A chat body with a plain greeting message. -/
def helloChatBody : ChatBody :=
  { message := some "Hello", includeContext := none }

/-! ## Helper lemmas -/

/-- A map that fixes every element of the list is the identity. -/
theorem mapFixesAll {α : Type} (f : α → α) (l : List α)
    (h : ∀ a ∈ l, f a = a) : l.map f = l := by
  induction l with
  | nil => rfl
  | cons x xs ih =>
      simp only [List.map_cons, List.cons.injEq]
      exact ⟨h x (List.mem_cons_self x xs), ih fun a ha => h a (List.mem_cons_of_mem x ha)⟩

/-- C1: For every GET /api/contact list request with limit L (default
50) and offset O (default 0) and no status filter, over a successfully
fetched full result set `msgs`, the returned data has length
`min L (total - O)` (truncated subtraction, i.e. `min L (max 0 (total - O))`),
`pagination.total` equals the full result-set size, and `has_more`
holds iff `O + L < total`. -/
theorem contact_pagination_law (ql qo : Option Nat) (msgs : List ContactMsg) :
    (getAllMessages { status := none, limit := ql, offset := qo } msgs none).status = 200 ∧
    (getAllMessages { status := none, limit := ql, offset := qo } msgs none).data.length
      = min (ql.getD 50) (msgs.length - qo.getD 0) ∧
    ∃ p, (getAllMessages { status := none, limit := ql, offset := qo } msgs none).pagination
        = some p ∧
      p.total = msgs.length ∧
      (p.has_more = true ↔ qo.getD 0 + ql.getD 50 < msgs.length) := by
  refine ⟨rfl, ?_, ?_⟩
  · show (jsSlice msgs (qo.getD 0) (qo.getD 0 + ql.getD 50)).length = _
    simp only [jsSlice, List.length_drop, List.length_take]
    omega
  · refine ⟨_, rfl, rfl, ?_⟩
    simp only [decide_eq_true_eq]

/-- C2: GET /api/portfolio dispatches to exactly one backing operation
with priority search, then featured = 'true', then available = 'true',
then category, then the unfiltered list ("present" meaning supplied
with a non-empty value, i.e. JS-truthy, for the free-text parameters),
and the success response carries the operation's data with
`count` equal to the length of `data`; a backing error yields the 500
shape instead. -/
theorem portfolio_dispatch_priority (q : PortfolioQuery) (store : List Dish)
    (exc : Option Err) :
    (getAllDishes q store exc).data
        = (runDishOp (claimSelectedOp q) store exc).data.getD [] ∧
    (getAllDishes q store exc).count = (getAllDishes q store exc).data.length ∧
    (getAllDishes q store exc).success
        = (runDishOp (claimSelectedOp q) store exc).error.isNone ∧
    (getAllDishes q store exc).status
        = (if (runDishOp (claimSelectedOp q) store exc).error.isNone then 200 else 500) := by
  rcases exc with _ | e <;>
    unfold getAllDishes claimSelectedOp <;>
    split_ifs <;>
    simp_all [runDishOp, dishSearch, dishGetFeatured, dishGetAvailable,
      dishGetByCategory, dishGetAll, dbSelect]

/-- C3: for every dish-creation input that passes the required-field
validation (truthy title, description, category), the record handed to
the store has `is_available = true` unless the input's `is_available`
is explicitly the boolean false (then it is false), and has empty
`ingredients` whenever the input omits them. -/
theorem dish_create_defaults (body : DishInput) (newId now : String)
    (exc : Option Err)
    (ht : truthyStr body.title = true)
    (hd : truthyStr body.description = true)
    (hc : truthyStr body.category = true) :
    (createDish body newId now exc).storeArg = some (dishCreateRecord body newId now) ∧
    (body.is_available ≠ some false →
      (dishCreateRecord body newId now).is_available = true) ∧
    (body.is_available = some false →
      (dishCreateRecord body newId now).is_available = false) ∧
    (body.ingredients = none → (dishCreateRecord body newId now).ingredients = []) := by
  refine ⟨?_, ?_, ?_, ?_⟩
  · unfold createDish
    rw [ht, hd, hc]
    rcases exc with _ | e <;> simp [dbInsert]
  · intro h
    simp only [dishCreateRecord]
    rcases hb : body.is_available with _ | b
    · simp
    · cases b
      · exact absurd hb h
      · simp
  · intro h
    simp [dishCreateRecord, h]
  · intro h
    simp [dishCreateRecord, h]

/-- C3 witness: the theorem applied at `sampleDishInput`. -/
theorem dish_create_defaults_witness :
    (truthyStr sampleDishInput.title = true ∧
     truthyStr sampleDishInput.description = true ∧
     truthyStr sampleDishInput.category = true) ∧
    ((createDish sampleDishInput "d1" "t0" none).storeArg
        = some (dishCreateRecord sampleDishInput "d1" "t0") ∧
     (sampleDishInput.is_available ≠ some false →
       (dishCreateRecord sampleDishInput "d1" "t0").is_available = true) ∧
     (sampleDishInput.is_available = some false →
       (dishCreateRecord sampleDishInput "d1" "t0").is_available = false) ∧
     (sampleDishInput.ingredients = none →
       (dishCreateRecord sampleDishInput "d1" "t0").ingredients = [])) :=
  ⟨⟨by decide, by decide, by decide⟩,
   dish_create_defaults sampleDishInput "d1" "t0" none (by decide) (by decide) (by decide)⟩

/-- C4: a PUT /api/portfolio/:id whose id matches no stored row returns
404 with success false, leaves the store unchanged, and the underlying
update signals not-found upward as the empty data sequence. -/
theorem update_missing_id_404 (i : String) (body : DishPatch) (now : String)
    (store : List Dish) (h : ∀ r ∈ store, r.id ≠ i) :
    (updateDish i body now store none).1.status = 404 ∧
    (updateDish i body now store none).1.success = false ∧
    (updateDish i body now store none).2 = store ∧
    (dishUpdate store i body now none).1.data = some [] := by
  have hfilter : store.filter (fun r => r.id == i) = [] := by
    rw [List.filter_eq_nil_iff]
    intro a ha
    simp only [beq_iff_eq]
    exact h a ha
  have hmap : store.map (fun r => if r.id == i then applyDishPatch body now r else r)
      = store := by
    apply mapFixesAll
    intro a ha
    have hne : (a.id == i) = false := by
      simp only [beq_eq_false_iff_ne]
      exact h a ha
    simp [hne]
  refine ⟨?_, ?_, ?_, ?_⟩
  · unfold updateDish dishUpdate dbUpdateRows
    simp only [hfilter, hmap, List.map_nil]
    rfl
  · unfold updateDish dishUpdate dbUpdateRows
    simp only [hfilter, hmap, List.map_nil]
    rfl
  · unfold updateDish dishUpdate dbUpdateRows
    simp only [hfilter, hmap, List.map_nil]
    rfl
  · unfold dishUpdate dbUpdateRows
    simp only [hfilter, List.map_nil]

/-- C4 witness: updating id `d2` against a store holding only `d1`. -/
theorem update_missing_id_404_witness :
    (∀ r ∈ [sampleDish], r.id ≠ "d2") ∧
    ((updateDish "d2" {} "t1" [sampleDish] none).1.status = 404 ∧
     (updateDish "d2" {} "t1" [sampleDish] none).1.success = false ∧
     (updateDish "d2" {} "t1" [sampleDish] none).2 = [sampleDish] ∧
     (dishUpdate [sampleDish] "d2" {} "t1" none).1.data = some []) :=
  ⟨by decide, update_missing_id_404 "d2" {} "t1" [sampleDish] (by decide)⟩

/-- C6: DELETE /api/portfolio/:id is idempotent at the HTTP level: for
every id and store, two successive deletes (store succeeding) both
return 200 with success true - the handler performs no existence check
and a delete matching zero rows is not an error. -/
theorem delete_idempotent_200 (i : String) (store : List Dish) :
    (deleteDish i store none).1.status = 200 ∧
    (deleteDish i store none).1.success = true ∧
    (deleteDish i ((deleteDish i store none).2) none).1.status = 200 ∧
    (deleteDish i ((deleteDish i store none).2) none).1.success = true := by
  refine ⟨rfl, rfl, rfl, rfl⟩

/-- C7: every Data Access Helper operation (select, insert, update,
delete) and every repository method - the generic delegates of
DishModel (getAll, getById, create via insert, update, delete,
getByCategory, getFeatured, getAvailable) and ContactModel (create via
insert, getAll, getById, updateStatus, delete, getByStatus) as well as
the three bespoke try/catch query sites (DishModel.search,
ContactModel.search, ContactModel.getRecent) - is total with respect
to store failures: a store-level exception is caught and returned as
`{data: null, error}` (or `{error}` for delete) instead of
propagating. -/
theorem db_ops_catch_store_failures (e : Err) (rows : List Dish) (row : Dish)
    (i : String) (p : DishPatch) (now : String) (cstore : List ContactMsg)
    (cmsg : ContactMsg) (term : String) (c : String) (cutoff : String) :
    dbSelect rows (some e) = { data := none, error := some e } ∧
    dbInsert row (some e) = { data := none, error := some e } ∧
    (dbUpdateRows Dish.id (applyDishPatch p now) rows i (some e)).1
        = { data := none, error := some e } ∧
    (dbDeleteRows Dish.id rows i (some e)).1 = { error := some e } ∧
    dishGetAll rows (some e) = { data := none, error := some e } ∧
    dishGetFeatured rows (some e) = { data := none, error := some e } ∧
    dishGetAvailable rows (some e) = { data := none, error := some e } ∧
    dishGetByCategory rows c (some e) = { data := none, error := some e } ∧
    dishGetById rows i (some e) = { data := none, error := some e } ∧
    dishSearch rows term (some e) = { data := none, error := some e } ∧
    (dishUpdate rows i p now (some e)).1 = { data := none, error := some e } ∧
    (dishDelete rows i (some e)).1 = { error := some e } ∧
    dbInsert cmsg (some e) = { data := none, error := some e } ∧
    contactGetAll cstore (some e) = { data := none, error := some e } ∧
    contactGetByStatus cstore c (some e) = { data := none, error := some e } ∧
    contactGetById cstore i (some e) = { data := none, error := some e } ∧
    (contactUpdateStatus cstore i c now (some e)).1
        = { data := none, error := some e } ∧
    (contactDelete cstore i (some e)).1 = { error := some e } ∧
    contactGetRecent cstore cutoff (some e) = { data := none, error := some e } ∧
    contactSearch cstore term (some e) = { data := none, error := some e } :=
  ⟨rfl, rfl, rfl, rfl, rfl, rfl, rfl, rfl, rfl, rfl,
   rfl, rfl, rfl, rfl, rfl, rfl, rfl, rfl, rfl, rfl⟩

/-- C5: every POST /api/contact whose email does not match the basic
syntactic email pattern (including a missing email) returns 400 with
success false and performs no store write: the repository create is
never invoked, so no record is handed to the store. -/
theorem contact_invalid_email_400 (body : ContactInput) (newId now : String)
    (exc : Option Err)
    (h : match body.email with
         | none => True
         | some e => emailRegexTest e = false) :
    (submitContact body newId now exc).status = 400 ∧
    (submitContact body newId now exc).success = false ∧
    (submitContact body newId now exc).storeArg = none := by
  unfold submitContact
  by_cases h1 :
      (!truthyStr body.name || !truthyStr body.email || !truthyStr body.message) = true
  · rw [if_pos h1]
    exact ⟨rfl, rfl, rfl⟩
  · rw [if_neg h1]
    have hemail : emailRegexTest (body.email.getD "") = false := by
      rcases he : body.email with _ | e
      · rfl
      · rw [he] at h
        exact h
    rw [hemail]
    exact ⟨rfl, rfl, rfl⟩

/-- C5 witness: the literal body from the spec example, with email
`not-an-email`. -/
theorem contact_invalid_email_400_witness :
    (match invalidEmailInput.email with
     | none => True
     | some e => emailRegexTest e = false) ∧
    ((submitContact invalidEmailInput "c1" "t0" none).status = 400 ∧
     (submitContact invalidEmailInput "c1" "t0" none).success = false ∧
     (submitContact invalidEmailInput "c1" "t0" none).storeArg = none) :=
  ⟨(by decide : emailRegexTest "not-an-email" = false),
   contact_invalid_email_400 invalidEmailInput "c1" "t0" none
     (by decide : emailRegexTest "not-an-email" = false)⟩

/-- C9: every contact message created through POST /api/contact is
stored with status exactly `new`: whenever the handler hands a record
to the store at all, that record's status is `new`, regardless of any
client-supplied status field (the create path never reads one). -/
theorem contact_created_status_new (body : ContactInput) (newId now : String)
    (exc : Option Err) (stored : ContactMsg)
    (h : (submitContact body newId now exc).storeArg = some stored) :
    stored.status = "new" := by
  unfold submitContact at h
  by_cases h1 :
      (!truthyStr body.name || !truthyStr body.email || !truthyStr body.message) = true
  · rw [if_pos h1] at h
    exact absurd h (by simp)
  · rw [if_neg h1] at h
    by_cases h2 : emailRegexTest (body.email.getD "") = true
    · rw [if_neg (by simp [h2])] at h
      rcases exc with _ | e <;>
        · simp only [dbInsert] at h
          obtain rfl : contactCreateRecord body newId now = stored :=
            Option.some_injective _ h
          rfl
    · rw [if_pos (by simp only [Bool.not_eq_true] at h2; simp [h2])] at h
      exact absurd h (by simp)

/-- C9 witness: the handler inserts a record for `sampleContactInput`
and that record's status is `new` despite the body carrying
`status = archived`. -/
theorem contact_created_status_new_witness :
    (submitContact sampleContactInput "c1" "t0" none).storeArg
        = some (contactCreateRecord sampleContactInput "c1" "t0") ∧
    (contactCreateRecord sampleContactInput "c1" "t0").status = "new" :=
  ⟨by decide,
   contact_created_status_new sampleContactInput "c1" "t0" none
     (contactCreateRecord sampleContactInput "c1" "t0") (by decide)⟩

/-- C8 counterexample: with the credential unset, the non-empty message
consisting of a single blank returns 400 (message-required validation
fires before the availability check), not 503 as the claim states for
every non-empty message. -/
theorem chat_unavailable_counterexample :
    (" " : String) ≠ "" ∧
    (chat (GeminiService.init none) blankChatBody { data := none, error := none }
      (Except.error { message := "" })).status = 400 ∧
    ¬ (chat (GeminiService.init none) blankChatBody { data := none, error := none }
      (Except.error { message := "" })).status = 503 := by
  refine ⟨by decide, by decide, by decide⟩

/-- C8 (amended): if the AI gateway credential is unset (falsy) at
process start, the gateway is unavailable: GET /api/chatbot/status
reports aiAvailable false and apiStatus `disconnected`, and every
POST /api/chatbot/chat whose message is non-blank (non-empty after
trimming whitespace) returns 503 with no call to the generation
service - and since nothing in the program ever mutates the service
constructed at startup, this holds identically for every request of the
process lifetime. -/
theorem chat_unavailable_503 (envKey : Option String)
    (hk : truthyStr envKey = false) (body : ChatBody) (m : String)
    (hm : body.message = some m) (hmt : jsTrim m ≠ "")
    (fetch : DbResult (List Dish)) (gen : Except Err String) :
    (getStatus (GeminiService.init envKey)).aiAvailable = false ∧
    (getStatus (GeminiService.init envKey)).apiStatus = "disconnected" ∧
    (chat (GeminiService.init envKey) body fetch gen).status = 503 ∧
    (chat (GeminiService.init envKey) body fetch gen).success = false ∧
    (chat (GeminiService.init envKey) body fetch gen).generationCalled = false := by
  have hsvc : GeminiService.init envKey = { apiKey := envKey, genAI := none } := by
    unfold GeminiService.init
    simp [hk]
  have havail : (GeminiService.init envKey).isAvailable = false := by
    rw [hsvc]
    rfl
  have hmm2 : messageMissing body.message = false := by
    rw [hm]
    simp [messageMissing, beq_eq_false_iff_ne, hmt]
  refine ⟨?_, ?_, ?_, ?_, ?_⟩ <;>
    simp [getStatus, chat, havail, hmm2]

/-- C8 witness for the amended theorem: credential unset, message
`Hello`. -/
theorem chat_unavailable_503_witness :
    (truthyStr none = false ∧ helloChatBody.message = some "Hello" ∧
      jsTrim "Hello" ≠ "") ∧
    ((getStatus (GeminiService.init none)).aiAvailable = false ∧
     (getStatus (GeminiService.init none)).apiStatus = "disconnected" ∧
     (chat (GeminiService.init none) helloChatBody { data := none, error := none }
       (Except.error { message := "" })).status = 503 ∧
     (chat (GeminiService.init none) helloChatBody { data := none, error := none }
       (Except.error { message := "" })).success = false ∧
     (chat (GeminiService.init none) helloChatBody { data := none, error := none }
       (Except.error { message := "" })).generationCalled = false) :=
  ⟨⟨by decide, rfl, by decide⟩,
   chat_unavailable_503 none (by decide) helloChatBody "Hello" rfl (by decide)
     { data := none, error := none } (Except.error { message := "" })⟩

/-- C10: with the gateway available, a non-blank message and a
successful generation outcome, the chat response's `contextIncluded` is
true iff `includeContext` was not false and the catalog fetch returned
non-null data; a fetch returning the empty list still yields
`contextIncluded = true` while the submitted prompt carries no menu
section (it equals the no-context prompt); a null-data fetch yields
`contextIncluded = false` with the request still succeeding. -/
theorem chat_context_included_iff (svc : GeminiService)
    (hav : svc.isAvailable = true) (m : String) (hmt : jsTrim m ≠ "")
    (incl : Option Bool) (d : Option (List Dish)) (err : Option Err)
    (txt : String) :
    (chat svc { message := some m, includeContext := incl }
        { data := d, error := err } (Except.ok txt)).status = 200 ∧
    (chat svc { message := some m, includeContext := incl }
        { data := d, error := err } (Except.ok txt)).success = true ∧
    (chat svc { message := some m, includeContext := incl }
        { data := d, error := err } (Except.ok txt)).contextIncluded
      = some (!(incl == some false) && d.isSome) ∧
    (d = some [] →
      (chat svc { message := some m, includeContext := incl }
          { data := d, error := err } (Except.ok txt)).sentPrompt
        = some (buildPrompt m none)) ∧
    (d = none →
      (chat svc { message := some m, includeContext := incl }
          { data := d, error := err } (Except.ok txt)).contextIncluded
        = some false) := by
  have hmm2 : messageMissing (some m) = false := by
    simp [messageMissing, beq_eq_false_iff_ne, hmt]
  refine ⟨?_, ?_, ?_, ?_, ?_⟩
  · simp [chat, hmm2, hav, generateResponse]
  · simp [chat, hmm2, hav, generateResponse]
  · rcases incl with _ | b
    · rcases d with _ | ds <;> simp [chat, hmm2, hav, generateResponse]
    · cases b <;> rcases d with _ | ds <;>
        simp [chat, hmm2, hav, generateResponse]
  · intro hd
    subst hd
    rcases incl with _ | b
    · simp [chat, hmm2, hav, generateResponse, buildPrompt, projCtx]
    · cases b <;> simp [chat, hmm2, hav, generateResponse, buildPrompt, projCtx]
  · intro hd
    subst hd
    simp [chat, hmm2, hav, generateResponse]

/-- C10 witness: an available gateway, message `Hi`, default
includeContext, and a successful fetch returning the empty catalog. -/
theorem chat_context_included_iff_witness :
    ((GeminiService.init (some "k")).isAvailable = true ∧ jsTrim "Hi" ≠ "") ∧
    ((chat (GeminiService.init (some "k")) { message := some "Hi", includeContext := none } { data := some [], error := none } (Except.ok "ok")).status = 200 ∧
     (chat (GeminiService.init (some "k")) { message := some "Hi", includeContext := none } { data := some [], error := none } (Except.ok "ok")).success = true ∧
     (chat (GeminiService.init (some "k")) { message := some "Hi", includeContext := none } { data := some [], error := none } (Except.ok "ok")).contextIncluded = some (!((none : Option Bool) == some false) && (some ([] : List Dish)).isSome) ∧
     ((some ([] : List Dish)) = some [] → (chat (GeminiService.init (some "k")) { message := some "Hi", includeContext := none } { data := some [], error := none } (Except.ok "ok")).sentPrompt = some (buildPrompt "Hi" none)) ∧
     ((some ([] : List Dish)) = none → (chat (GeminiService.init (some "k")) { message := some "Hi", includeContext := none } { data := some [], error := none } (Except.ok "ok")).contextIncluded = some false)) :=
  ⟨⟨by decide, by decide⟩,
   chat_context_included_iff (GeminiService.init (some "k")) (by decide) "Hi"
     (by decide) none (some []) none "ok"⟩
